import Mathlib

/-!
Shallow embedding of `socket.io-db-session` (src/index.js): the Session
engine (token issuance, load-or-create, expiration check, persistence on
mutation).  Pure JS functions become Lean functions; the mutable `this`
state of a `Session` object becomes an explicit `SessionState` record that
operations take and return; the MySQL gateway becomes explicit inputs
(`QueryResult` for a lookup's outcome) and outputs (`Upsert` for the row an
`INSERT ... ON DUPLICATE KEY UPDATE` would write).  `Date.now()` becomes an
explicit `nowMs : Nat` argument, and `uid.sync(24)` an explicit
`freshTok : String` argument (the freshly generated random token).
-/

/-- JSON values, the domain of the session's `values` map entries
(JSON-serializable JS values; `undefined` is not JSON-serializable and has
no constructor here). -/
inductive Json where
  | null
  | bool (b : Bool)
  | num (n : Int)
  | str (s : String)
  | arr (elems : List Json)
  | obj (fields : List (String × Json))

/-- The `{` character, kept out of character-literal position. -/
def lbrace : Char := Char.ofNat 123

/-- The `}` character. -/
def rbrace : Char := Char.ofNat 125

/-- Decimal digits of a natural number, most significant first; fuel-driven
so that closed terms reduce by `rfl`. -/
def natDigits : Nat → Nat → List Char
  | 0, _ => []
  | fuel + 1, n =>
    if n < 10 then [Char.ofNat (48 + n)]
    else natDigits fuel (n / 10) ++ [Char.ofNat (48 + n % 10)]

/-- Decimal rendering of a natural number. -/
def natToString (n : Nat) : String := String.mk (natDigits (n + 1) n)

/-- Decimal rendering of an integer, as `JSON.stringify` renders JS
integers. -/
def intToString : Int → String
  | .ofNat n => natToString n
  | .negSucc n => "-" ++ natToString (n + 1)

mutual

/-- Model of `JSON.stringify` on the JSON-value fragment the engine stores
(integers, strings without characters needing escapes, arrays, objects). -/
def jsonStringify : Json → String
  | .null => "null"
  | .bool b => if b then "true" else "false"
  | .num n => intToString n
  | .str s => "\"" ++ s ++ "\""
  | .arr xs => "[" ++ stringifyArr xs ++ "]"
  | .obj fs => String.mk [lbrace] ++ stringifyObj fs ++ String.mk [rbrace]

/-- Comma-separated rendering of array elements. -/
def stringifyArr : List Json → String
  | [] => ""
  | [x] => jsonStringify x
  | x :: y :: xs => jsonStringify x ++ "," ++ stringifyArr (y :: xs)

/-- Comma-separated rendering of object fields. -/
def stringifyObj : List (String × Json) → String
  | [] => ""
  | [(k, v)] => "\"" ++ k ++ "\":" ++ jsonStringify v
  | (k, v) :: f :: fs =>
      "\"" ++ k ++ "\":" ++ jsonStringify v ++ "," ++ stringifyObj (f :: fs)

end

/-- Drop leading JSON whitespace. -/
def skipWs : List Char → List Char
  | [] => []
  | c :: cs =>
      if c = ' ' || c = '\t' || c = '\n' || c = '\r' then skipWs cs
      else c :: cs

/-- Parse the body of a JSON string after the opening quote, up to the
closing quote; handles backslash escapes minimally. -/
def parseStringBody : Nat → List Char → Option (String × List Char)
  | 0, _ => none
  | _ + 1, [] => none
  | fuel + 1, c :: cs =>
    if c = '"' then some ("", cs)
    else if c = '\\' then
      match cs with
      | [] => none
      | e :: cs2 =>
        let ch := if e = 'n' then '\n' else e
        match parseStringBody fuel cs2 with
        | some (s, rest) => some (String.mk (ch :: s.data), rest)
        | none => none
    else
      match parseStringBody fuel cs with
      | some (s, rest) => some (String.mk (c :: s.data), rest)
      | none => none

/-- Split a leading run of decimal digits from the input. -/
def takeDigits : List Char → List Char × List Char
  | [] => ([], [])
  | c :: cs =>
    if c.isDigit then
      let (ds, rest) := takeDigits cs
      (c :: ds, rest)
    else ([], c :: cs)

/-- Numeric value of a digit run. -/
def digitsToNat (ds : List Char) : Nat :=
  ds.foldl (fun acc c => acc * 10 + (c.toNat - 48)) 0

/-- Match a literal character sequence at the head of the input. -/
def stripLit : List Char → List Char → Option (List Char)
  | [], cs => some cs
  | _ :: _, [] => none
  | l :: ls, c :: cs => if c = l then stripLit ls cs else none

mutual

/-- Model of `JSON.parse` (one value): fuel-driven recursive-descent parser
over the same JSON fragment `jsonStringify` produces.  `none` models a
thrown `SyntaxError`. -/
def parseVal : Nat → List Char → Option (Json × List Char)
  | 0, _ => none
  | fuel + 1, cs =>
    match skipWs cs with
    | [] => none
    | c :: rest =>
      if c = '"' then
        match parseStringBody (rest.length + 1) rest with
        | some (s, rest2) => some (Json.str s, rest2)
        | none => none
      else if c = '[' then
        match skipWs rest with
        | ']' :: rest2 => some (Json.arr [], rest2)
        | other =>
          match parseArrTail fuel other with
          | some (xs, rest2) => some (Json.arr xs, rest2)
          | none => none
      else if c = lbrace then
        match skipWs rest with
        | [] => none
        | c2 :: rest2 =>
          if c2 = rbrace then some (Json.obj [], rest2)
          else
            match parseObjTail fuel (c2 :: rest2) with
            | some (fs, rest3) => some (Json.obj fs, rest3)
            | none => none
      else if c = '-' then
        match takeDigits rest with
        | ([], _) => none
        | (ds, rest2) => some (Json.num (-(digitsToNat ds : Int)), rest2)
      else if c.isDigit then
        match takeDigits (c :: rest) with
        | (ds, rest2) => some (Json.num (digitsToNat ds), rest2)
      else if c = 'n' then
        match stripLit ['u', 'l', 'l'] rest with
        | some rest2 => some (Json.null, rest2)
        | none => none
      else if c = 't' then
        match stripLit ['r', 'u', 'e'] rest with
        | some rest2 => some (Json.bool true, rest2)
        | none => none
      else if c = 'f' then
        match stripLit ['a', 'l', 's', 'e'] rest with
        | some rest2 => some (Json.bool false, rest2)
        | none => none
      else none

/-- Parse the elements of a non-empty JSON array up to `]`. -/
def parseArrTail : Nat → List Char → Option (List Json × List Char)
  | 0, _ => none
  | fuel + 1, cs =>
    match parseVal fuel cs with
    | none => none
    | some (v, rest) =>
      match skipWs rest with
      | ',' :: rest2 =>
        match parseArrTail fuel rest2 with
        | some (xs, rest3) => some (v :: xs, rest3)
        | none => none
      | ']' :: rest2 => some ([v], rest2)
      | _ => none

/-- Parse the fields of a non-empty JSON object up to `}`. -/
def parseObjTail : Nat → List Char → Option (List (String × Json) × List Char)
  | 0, _ => none
  | fuel + 1, cs =>
    match skipWs cs with
    | '"' :: rest =>
      match parseStringBody (rest.length + 1) rest with
      | none => none
      | some (k, rest2) =>
        match skipWs rest2 with
        | ':' :: rest3 =>
          match parseVal fuel rest3 with
          | none => none
          | some (v, rest4) =>
            match skipWs rest4 with
            | ',' :: rest5 =>
              match parseObjTail fuel rest5 with
              | some (fs, rest6) => some ((k, v) :: fs, rest6)
              | none => none
            | c5 :: rest5 => if c5 = rbrace then some ([(k, v)], rest5) else none
            | [] => none
        | _ => none
    | _ => none

end

/-- Model of `JSON.parse(s)` on a whole input string; `none` models a
thrown `SyntaxError`. -/
def jsonParse (s : String) : Option Json :=
  match parseVal (s.length + 2) s.data with
  | some (v, rest) => if (skipWs rest).isEmpty then some v else none
  | none => none

/-- `JSON.parse` of a stored `data` blob as `_loadSession` consumes it: the
engine only ever serializes its `values` object, so a blob that does not
parse as a JSON object is treated as a parse failure. -/
def jsonParseValues (s : String) : Option (List (String × Json)) :=
  match jsonParse s with
  | some (.obj fs) => some fs
  | _ => none

/-- A caller-visible logger value: either the built-in no-op logger the
constructor installs, or a caller-supplied one (identified abstractly). -/
inductive LoggerKind where
  | noop
  | custom (id : Nat)
deriving DecidableEq

/-- The caller's `options` object as the constructor sees it: fields are
`Option` because a JS caller may omit them; `hasDb` records whether
`options.db` is defined. -/
structure OptionsIn where
  expiration : Option Nat
  logger : Option LoggerKind
  hasDb : Bool
deriving DecidableEq

/-- Default `expiration` installed by the constructor (ms). -/
def defaultExpiration : Nat := 86400000

/-- Model of `_.extend(options, defaults)` at index.js:22-29 and 253-260:
underscore's `extend` copies every property of the source over the
destination, overwriting, and mutates the destination (the caller's
`options` object) in place; the result returned here is that mutated
object. -/
def extendDefaults (o : OptionsIn) : OptionsIn :=
  { o with expiration := some defaultExpiration, logger := some LoggerKind.noop }

/-- The mutable fields of a `Session` object (`this.options.expiration`,
`this.values`, `this.token`, `this.expires`).  The db handle and logger are
effect sinks with no bearing on state and are not carried. -/
structure SessionState where
  expiration : Nat
  values : List (String × Json)
  token : String
  expires : Nat

/-- One row of the `session` table as the lookup returns it. -/
structure Row where
  sessionId : String
  expires : Nat
  data : String

/-- The parameters of the upsert query `_saveSession` issues
(`INSERT INTO session (sessionId, expires, data) VALUES (?, ?, ?) ON
DUPLICATE KEY UPDATE expires = ?, data = ?`). -/
structure Upsert where
  sessionId : String
  expires : Nat
  data : String
deriving DecidableEq

/-- Outcome of the storage lookup in `_loadSession`: `failure` is the
driver invoking the callback with `results` undefined (a query error);
`rows` is a successful query with its result list. -/
inductive QueryResult where
  | failure
  | rows (rs : List Row)

/-- Model of `_generateExpires` (index.js:78-81):
`Math.round((new Date(Date.now() + this.options.expiration).getTime() / 1000))`,
i.e. round-half-up of (nowMs + expiration) milliseconds to seconds. -/
def generateExpires (expirationMs nowMs : Nat) : Nat :=
  (nowMs + expirationMs + 500) / 1000

/-- `Math.round((new Date(Date.now()).getTime() / 1000))` as used by
`_isExpired` (index.js:185). -/
def nowSeconds (nowMs : Nat) : Nat := (nowMs + 500) / 1000

/-- Model of `_isExpired` (index.js:183-187): `now > this.expires`. -/
def isExpired (s : SessionState) (nowMs : Nat) : Bool :=
  decide (nowSeconds nowMs > s.expires)

/-- Model of `_saveSession` (index.js:93-129).  It serializes `values`,
recomputes `expires` into a local variable, and issues the upsert only when
`this.token != ""` (otherwise it just logs "Token is empty.").  It never
assigns to `this`, so the state comes back unchanged; the second component
is the query issued, if any. -/
def saveSession (s : SessionState) (nowMs : Nat) : SessionState × Option Upsert :=
  let sessionData := jsonStringify (Json.obj s.values)
  let expires := generateExpires s.expiration nowMs
  if s.token ≠ "" then
    (s, some { sessionId := s.token, expires := expires, data := sessionData })
  else
    (s, none)

/-- Result of running `_loadSession`'s query callback: `thrown` is an
exception escaping the callback (so the caller's callback never runs);
`done` carries the final state, the repair upsert if one was issued, and
the `(token, message)` arguments passed to the caller's callback. -/
inductive LoadOutcome where
  | thrown
  | done (s : SessionState) (upsert : Option Upsert) (cbToken : String) (cbMsg : String)

/-- Model of the query callback inside `_loadSession` (index.js:143-175).
`freshTok` stands for the `uid.sync(24)` value generated on the repair
path; `errInfo` for `util.inspect(error)` on the failure path. -/
def loadSessionCb (s : SessionState) (res : QueryResult) (freshTok errInfo : String)
    (nowMs : Nat) : LoadOutcome :=
  match res with
  | .rows (r :: _) =>
    match jsonParseValues r.data with
    | none => .thrown
    | some vs =>
      let s1 : SessionState := { s with values := vs, expires := r.expires }
      if isExpired s1 nowMs then
        let s2 : SessionState :=
          { s1 with token := freshTok, expires := generateExpires s1.expiration nowMs }
        let sv := saveSession s2 nowMs
        .done sv.1 sv.2 sv.1.token "Session Expired"
      else
        .done s1 none s1.token ""
  | .rows [] =>
    let s2 : SessionState :=
      { s with token := freshTok, expires := generateExpires s.expiration nowMs }
    let sv := saveSession s2 nowMs
    .done sv.1 sv.2 sv.1.token "Session Not Found"
  | .failure =>
    let s1 : SessionState := { s with token := "" }
    .done s1 none s1.token ("Something terrible happened\n" ++ errInfo)

/-- A JS value in token position: the middleware may pass `undefined`. -/
inductive JsTok where
  | undef
  | str (s : String)

/-- `_.isUndefined(token)`. -/
def jsIsUndefined : JsTok → Bool
  | .undef => true
  | .str _ => false

/-- `_.isEqual(token, "")`: deep equality with the empty string, false for
`undefined`. -/
def jsIsEqualEmptyStr : JsTok → Bool
  | .undef => false
  | .str s => s == ""

/-- The guard of the new-session branch of `Session.prototype.loadSession`
(index.js:223): `_.isUndefined(token) && _.isEqual(token, "")`. -/
def newSessionGuard (t : JsTok) : Bool :=
  jsIsUndefined t && jsIsEqualEmptyStr t

/-- Model of `Session.prototype.loadSession` (index.js:220-231) for a
string-valued `token`, composed with the lookup's callback.  When the
guard holds it generates a token, saves, and calls the callback with the
ORIGINAL `token` argument and message `""`; otherwise it assigns
`this.token = token` and runs `_loadSession`, whose query result is the
`res` argument. -/
def loadSession (s : SessionState) (token : String) (res : QueryResult)
    (freshTok errInfo : String) (nowMs : Nat) : LoadOutcome :=
  if newSessionGuard (.str token) then
    let s1 : SessionState := { s with token := freshTok }
    let sv := saveSession s1 nowMs
    .done sv.1 sv.2 token ""
  else
    loadSessionCb { s with token := token } res freshTok errInfo nowMs

/-- Lookup of a key among the OWN data properties of the values object. -/
def assocGet : List (String × Json) → String → Option Json
  | [], _ => none
  | (k2, v) :: rest, k => if k2 = k then some v else assocGet rest k

/-- Creation/overwrite of an own data property of the values object:
overwrite in place if the key exists, else append. -/
def assocSet : List (String × Json) → String → Json → List (String × Json)
  | [], k, v => [(k, v)]
  | (k2, v2) :: rest, k, v =>
      if k2 = k then (k, v) :: rest else (k2, v2) :: assocSet rest k v

/-- The property names a plain object literal `{}` (index.js:50) inherits
from `Object.prototype`: reading any of these on an otherwise-empty object
yields the inherited member — a built-in function, or for `__proto__` the
prototype object itself — and NOT `undefined`. -/
def objectPrototypeProps : List String :=
  ["constructor", "hasOwnProperty", "isPrototypeOf", "propertyIsEnumerable",
   "toLocaleString", "toString", "valueOf",
   "__defineGetter__", "__defineSetter__", "__lookupGetter__", "__lookupSetter__",
   "__proto__"]

/-- A JS property-read result as `Session.prototype.get` can observe it:
`undefined`, an own JSON data property, or a member inherited from
`Object.prototype` (a built-in function, or the prototype object for
`__proto__`) — inherited members are not JSON values. -/
inductive JsPropValue where
  | jsUndefined
  | json (v : Json)
  | protoMember (name : String)

/-- Property read `this.values[key]` on the values object: an own data
property shadows the chain; otherwise the `Object.prototype` member of
that name, if any; otherwise `undefined`.  The engine's values objects
(`{}` literals at construction and clear, and `JSON.parse` results) have
the default prototype; the model reads against it. -/
def jsPropGet (own : List (String × Json)) (k : String) : JsPropValue :=
  match assocGet own k with
  | some v => .json v
  | none => if k ∈ objectPrototypeProps then .protoMember k else .jsUndefined

/-- Property write `this.values[key] = value` in sloppy mode: the key
`"__proto__"` hits the inherited accessor, which never creates an own
property — assigning a primitive is a silent no-op, and assigning an
object would replace the prototype; the own data properties are unchanged
either way.  Every other key (including names like `"toString"`, which
then shadow the prototype) creates or overwrites an own data property. -/
def jsPropSet (own : List (String × Json)) (k : String) (v : Json) :
    List (String × Json) :=
  if k = "__proto__" then own else assocSet own k v

/-- Model of `Session.prototype.set` (index.js:195-199): mutate
`values[key]`, then `_saveSession`. -/
def sessionSet (s : SessionState) (key : String) (value : Json) (nowMs : Nat) :
    SessionState × Option Upsert :=
  saveSession { s with values := jsPropSet s.values key value } nowMs

/-- Model of `Session.prototype.get` (index.js:206-209): the property read
`this.values[key]`, with the empty-string sentinel returned exactly when
that read is `undefined` (`_.isUndefined`); an inherited member is not
`undefined` and is returned as is. -/
def sessionGet (s : SessionState) (key : String) : JsPropValue :=
  match jsPropGet s.values key with
  | .jsUndefined => .json (Json.str "")
  | other => other

/-- Model of `Session.prototype.clearSession` (index.js:236-239):
`this.values = {}` then `_saveSession`. -/
def clearSession (s : SessionState) (nowMs : Nat) : SessionState × Option Upsert :=
  saveSession { s with values := [] } nowMs

/-- Model of the `Session` constructor (index.js:9-188): extends the
caller's options with the defaults (overwriting, in place), throws when
`options.db` is undefined, and initializes `values = {}`, `token = ""`,
`expires = _generateExpires()`.  Returns the post-construction options
object (the caller's, mutated) together with the initial state. -/
def sessionNew (o : OptionsIn) (nowMs : Nat) : Except String (OptionsIn × SessionState) :=
  let o2 := extendDefaults o
  if o.hasDb then
    .ok (o2,
      { expiration := o2.expiration.getD 0
        values := []
        token := ""
        expires := generateExpires (o2.expiration.getD 0) nowMs })
  else
    .error "Database connection must be provided through options.db"

/-- A freshly constructed engine's state (caller passed a db handle and any
options; the TTL in force is always the default, see `extendDefaults`). -/
def freshSession (nowMs : Nat) : SessionState :=
  { expiration := defaultExpiration
    values := []
    token := ""
    expires := generateExpires defaultExpiration nowMs }

/-! General lemmas about the embedded operations. -/

/-- The guard of the new-session branch (index.js:223) is false for every
possible `token` value: a defined token is not `undefined`, and `undefined`
is not `_.isEqual` to `""`.  The branch is dead code. -/
theorem newSessionGuard_false (t : JsTok) : newSessionGuard t = false := by
  cases t <;> rfl

/-- `loadSession` always reaches `_loadSession`: the new-session branch is
unreachable, so the call is the lookup callback on the state with
`this.token = token`. -/
theorem loadSession_eq_cb (s : SessionState) (token : String) (res : QueryResult)
    (freshTok errInfo : String) (nowMs : Nat) :
    loadSession s token res freshTok errInfo nowMs =
      loadSessionCb { s with token := token } res freshTok errInfo nowMs := rfl

/-- `_saveSession` never assigns to the session object: the state after a
save is the state before it. -/
theorem saveSession_fst (s : SessionState) (nowMs : Nat) :
    (saveSession s nowMs).1 = s := by
  unfold saveSession
  split <;> rfl

/-- Property write followed by read on the same key yields the written
value. -/
theorem assocGet_assocSet (vs : List (String × Json)) (k : String) (v : Json) :
    assocGet (assocSet vs k v) k = some v := by
  induction vs with
  | nil => simp [assocSet, assocGet]
  | cons hd tl ih =>
    obtain ⟨k2, v2⟩ := hd
    by_cases hk : k2 = k
    · simp [assocSet, assocGet, hk]
    · simp [assocSet, assocGet, hk, ih]

/-- C1: the claim says `loadSession("", cb)` on an uninitialized engine
generates a fresh token T1, persists an empty session under T1, and calls
`cb` with `(T1, "")`.  The code's behavior at exactly that input: because
the new-session guard `_.isUndefined(token) && _.isEqual(token, "")` is
always false, the empty token is sent through the storage lookup; with no
row stored under `""` the repair path runs, so the callback does receive a
fresh token and an empty session is persisted, but the message is
`"Session Not Found"`, not the empty message the claim requires. -/
theorem C1_empty_token_load_behavior :
    loadSession (freshSession 0) "" (QueryResult.rows []) "T1" "" 0 =
      LoadOutcome.done
        { expiration := defaultExpiration, values := [], token := "T1", expires := 86400 }
        (some { sessionId := "T1", expires := 86400, data := jsonStringify (Json.obj []) })
        "T1" "Session Not Found"
    ∧ "Session Not Found" ≠ "" := by
  exact ⟨rfl, by decide⟩

/-- C2 counterexample: a stored row under token `"tok"` expired at second 0,
holding data `{"a":1}`, loaded at 10 seconds: the repair save persists the
old row's data `{"a":1}` under the new token, which is not the serialized
empty mapping — refuting the claim that the persisted session is empty. -/
theorem C2_counterexample :
    loadSession (freshSession 0) "tok"
        (QueryResult.rows [{ sessionId := "tok", expires := 0, data := "\x7b\"a\":1\x7d" }])
        "T2" "" 10000 =
      LoadOutcome.done
        { expiration := defaultExpiration, values := [("a", Json.num 1)],
          token := "T2", expires := 86410 }
        (some { sessionId := "T2", expires := 86410, data := "\x7b\"a\":1\x7d" })
        "T2" "Session Expired"
    ∧ ("\x7b\"a\":1\x7d" : String) ≠ jsonStringify (Json.obj []) := by
  exact ⟨rfl, by decide⟩

/-- C2 (amended): on a found row that is expired, the engine regenerates
the token and resets the expiry, but the session it persists under the new
token carries the old row's parsed data — `this.values` is rehydrated from
the row before the expiry check and never cleared — not an empty mapping. -/
theorem C2_expired_row_persists_old_data
    (s : SessionState) (t : String) (r : Row) (rest : List Row)
    (freshTok errInfo : String) (nowMs : Nat) (vs : List (String × Json))
    (hp : jsonParseValues r.data = some vs)
    (hexp : nowSeconds nowMs > r.expires)
    (hft : freshTok ≠ "") :
    loadSession s t (QueryResult.rows (r :: rest)) freshTok errInfo nowMs =
      LoadOutcome.done
        { s with values := vs, token := freshTok,
                 expires := generateExpires s.expiration nowMs }
        (some { sessionId := freshTok,
                expires := generateExpires s.expiration nowMs,
                data := jsonStringify (Json.obj vs) })
        freshTok "Session Expired" := by
  rw [loadSession_eq_cb]
  simp only [loadSessionCb]
  rw [hp]
  simp [isExpired, saveSession, hexp, hft]

/-- C2 witness: the amended theorem applied to a concrete expired row
holding `{"b":2}`, loaded at 20 seconds. -/
theorem C2_witness :
    loadSession (freshSession 0) "x"
        (QueryResult.rows [{ sessionId := "x", expires := 3, data := "\x7b\"b\":2\x7d" }])
        "W2" "" 20000 =
      LoadOutcome.done
        { (freshSession 0) with values := [("b", Json.num 2)], token := "W2",
                                expires := generateExpires (freshSession 0).expiration 20000 }
        (some { sessionId := "W2",
                expires := generateExpires (freshSession 0).expiration 20000,
                data := jsonStringify (Json.obj [("b", Json.num 2)]) })
        "W2" "Session Expired" :=
  C2_expired_row_persists_old_data (freshSession 0) "x"
    { sessionId := "x", expires := 3, data := "\x7b\"b\":2\x7d" } [] "W2" "" 20000
    [("b", Json.num 2)] (by rfl) (by decide) (by decide)

/-- C3 counterexample: an engine constructed at time 0 (in-memory
`expires = 86400`) performs a save via `set` at 5000 ms; the claim says the
engine-state expiry then equals now + TTL = 86405, but `_saveSession` only
computes the new expiry into a local variable for the query and never
assigns `this.expires`, which stays 86400. -/
theorem C3_counterexample :
    (sessionSet { freshSession 0 with token := "t" } "k" (Json.str "v") 5000).1.expires
      = 86400
    ∧ generateExpires defaultExpiration 5000 = 86405
    ∧ (86400 : Nat) ≠ 86405 := by
  exact ⟨rfl, rfl, by decide⟩

/-- C3 (amended): on every save with a token assigned, the upsert's
`expires` is freshly recomputed as round((now + TTL)/1000) from the
configured expiration — never from a caller-supplied value — and its data
is the serialized current values; but the save leaves the engine's own
state (including its in-memory `expires`) unchanged. -/
theorem C3_save_recomputes_row_expiry_only
    (s : SessionState) (nowMs : Nat) (h : s.token ≠ "") :
    (saveSession s nowMs).2 =
      some { sessionId := s.token, expires := generateExpires s.expiration nowMs,
             data := jsonStringify (Json.obj s.values) }
    ∧ (saveSession s nowMs).1 = s := by
  constructor
  · simp [saveSession, h]
  · exact saveSession_fst s nowMs

/-- C3 witness: the amended theorem at a concrete state with token `"t"`. -/
theorem C3_witness :
    (saveSession { freshSession 0 with token := "t" } 5000).2 =
      some { sessionId := "t", expires := generateExpires defaultExpiration 5000,
             data := jsonStringify (Json.obj []) }
    ∧ (saveSession { freshSession 0 with token := "t" } 5000).1 =
        { freshSession 0 with token := "t" } :=
  C3_save_recomputes_row_expiry_only { freshSession 0 with token := "t" } 5000 (by decide)

/-- C4: whatever `expiration` and `logger` fields the caller supplies,
after construction the options object (the caller's own, mutated in place
by `_.extend`) has `expiration = 86400000` and `logger` the built-in no-op
logger, and the TTL the engine uses is the default — a caller-configured
TTL is never the one in force. -/
theorem C4_defaults_overwrite_options
    (o : OptionsIn) (nowMs : Nat) (o2 : OptionsIn) (s : SessionState)
    (h : sessionNew o nowMs = Except.ok (o2, s)) :
    o2.expiration = some defaultExpiration
    ∧ o2.logger = some LoggerKind.noop
    ∧ o2 = extendDefaults o
    ∧ s.expiration = defaultExpiration := by
  unfold sessionNew at h
  by_cases hdb : o.hasDb
  · simp only [hdb, if_true] at h
    obtain ⟨ho, hs⟩ := Prod.mk.injEq .. ▸ (Except.ok.injEq .. ▸ h)
    subst ho
    refine ⟨rfl, rfl, rfl, ?_⟩
    rw [← hs]
    rfl
  · simp [hdb] at h

/-- C4 witness: a caller supplying `expiration = 1234` and a custom logger
still ends up with the defaults. -/
theorem C4_witness :
    ({ expiration := some defaultExpiration, logger := some LoggerKind.noop,
       hasDb := true } : OptionsIn).expiration = some defaultExpiration
    ∧ ({ expiration := some defaultExpiration, logger := some LoggerKind.noop,
         hasDb := true } : OptionsIn).logger = some LoggerKind.noop
    ∧ ({ expiration := some defaultExpiration, logger := some LoggerKind.noop,
         hasDb := true } : OptionsIn) =
        extendDefaults { expiration := some 1234, logger := some (LoggerKind.custom 7),
                         hasDb := true }
    ∧ (freshSession 0).expiration = defaultExpiration :=
  C4_defaults_overwrite_options
    { expiration := some 1234, logger := some (LoggerKind.custom 7), hasDb := true } 0
    { expiration := some defaultExpiration, logger := some LoggerKind.noop, hasDb := true }
    (freshSession 0) (by rfl)

/-- C5: when the lookup itself fails (`results` undefined), the engine
clears its token, the callback receives the empty token and the message
`"Something terrible happened\n" ++ util.inspect(error)` — non-empty for
every error — and no save write is issued. -/
theorem C5_lookup_failure_clears_token
    (s : SessionState) (t freshTok errInfo : String) (nowMs : Nat)
    (ht : t ≠ "") :
    loadSession s t QueryResult.failure freshTok errInfo nowMs =
      LoadOutcome.done { s with token := "" } none ""
        ("Something terrible happened\n" ++ errInfo)
    ∧ ("Something terrible happened\n" ++ errInfo) ≠ "" := by
  constructor
  · rfl
  · intro hc
    have h1 := congrArg String.length hc
    rw [String.length_append] at h1
    have h2 : ("Something terrible happened\n" : String).length = 28 := rfl
    have h3 : ("" : String).length = 0 := rfl
    rw [h2, h3] at h1
    omega

/-- C5 witness: a concrete failed lookup for token `"tok"`. -/
theorem C5_witness :
    loadSession (freshSession 0) "tok" QueryResult.failure "T" "connect ECONNREFUSED" 0 =
      LoadOutcome.done { (freshSession 0) with token := "" } none ""
        ("Something terrible happened\n" ++ "connect ECONNREFUSED")
    ∧ ("Something terrible happened\n" ++ "connect ECONNREFUSED") ≠ "" :=
  C5_lookup_failure_clears_token (freshSession 0) "tok" "T" "connect ECONNREFUSED" 0
    (by decide)

/-- C6 counterexample: a found row whose `data` blob is the malformed JSON
text `"{"` makes `JSON.parse` throw inside the lookup callback; the
exception escapes and the caller's callback is never invoked — refuting
the claim that every failure while processing the looked-up row's data is
routed through the callback's `errorMessage` argument. -/
theorem C6_counterexample :
    loadSession (freshSession 0) "tok"
        (QueryResult.rows [{ sessionId := "tok", expires := 99999999, data := "\x7b" }])
        "T3" "" 0 = LoadOutcome.thrown := rfl

/-- C6 (amended): `loadSession` itself never throws synchronously, and on
every lookup outcome other than a found row with an unparseable `data`
blob the caller's callback is invoked with a token and a message; but a
found row whose `data` fails JSON parsing raises an exception inside the
lookup callback instead. -/
theorem C6_callback_runs_unless_row_data_unparseable
    (s : SessionState) (t : String) (res : QueryResult)
    (freshTok errInfo : String) (nowMs : Nat)
    (h : ∀ r rs, res = QueryResult.rows (r :: rs) → jsonParseValues r.data ≠ none) :
    ∃ s2 up tok msg,
      loadSession s t res freshTok errInfo nowMs = LoadOutcome.done s2 up tok msg := by
  cases res with
  | failure => exact ⟨_, _, _, _, rfl⟩
  | rows rs =>
    cases rs with
    | nil => exact ⟨_, _, _, _, rfl⟩
    | cons r rest =>
      have hp := h r rest rfl
      cases hv : jsonParseValues r.data with
      | none => exact absurd hv hp
      | some vs =>
        rw [loadSession_eq_cb]
        simp only [loadSessionCb, hv]
        split
        · exact ⟨_, _, _, _, rfl⟩
        · exact ⟨_, _, _, _, rfl⟩

/-- C6 witness: the amended theorem at a failed lookup (no row data to
parse), where the callback is invoked. -/
theorem C6_witness :
    ∃ s2 up tok msg,
      loadSession (freshSession 0) "t" QueryResult.failure "T" "e" 0 =
        LoadOutcome.done s2 up tok msg :=
  C6_callback_runs_unless_row_data_unparseable (freshSession 0) "t" QueryResult.failure
    "T" "e" 0 (fun r rs hh => nomatch hh)

/-- C7 counterexample: the claim fails at ordinary string keys because
`this.values` is a plain object with a prototype chain.  On a fresh engine
`get("toString")` returns the inherited `Object.prototype.toString`
function — not the `""` sentinel the claim requires for an absent key —
and after `set("__proto__", "42")` (a JSON-serializable string value) the
assignment stores nothing, so `get("__proto__")` returns the prototype
object, not `"42"`. -/
theorem C7_counterexample :
    sessionGet (freshSession 0) "toString" = JsPropValue.protoMember "toString"
    ∧ JsPropValue.protoMember "toString" ≠ JsPropValue.json (Json.str "")
    ∧ sessionGet (sessionSet (freshSession 0) "__proto__" (Json.str "42") 0).1 "__proto__"
        = JsPropValue.protoMember "__proto__"
    ∧ JsPropValue.protoMember "__proto__" ≠ JsPropValue.json (Json.str "42") :=
  ⟨rfl, fun h => JsPropValue.noConfusion h, rfl, fun h => JsPropValue.noConfusion h⟩

/-- C7 (amended): for every key k other than `"__proto__"` (whose write
hits the inherited accessor and stores nothing), after `set(k, v)` on an
engine instance `get(k)` returns v; and `get` on a key absent from the
session's own values returns the empty-string sentinel provided the key is
not a member name inherited from `Object.prototype` — for names like
`"toString"` the inherited member is returned instead of the sentinel. -/
theorem C7_set_get_ordinary_keys
    (s : SessionState) (k : String) (v : Json) (nowMs : Nat)
    (hk : k ≠ "__proto__") :
    sessionGet (sessionSet s k v nowMs).1 k = JsPropValue.json v
    ∧ (assocGet s.values k = none → k ∉ objectPrototypeProps →
        sessionGet s k = JsPropValue.json (Json.str "")) := by
  constructor
  · rw [sessionSet, saveSession_fst]
    simp [sessionGet, jsPropGet, jsPropSet, hk, assocGet_assocSet]
  · intro h1 h2
    simp [sessionGet, jsPropGet, h1, h2]

/-- C7 witness: `set("userId", "42")` then `get("userId")` returns `"42"`;
`get("userId")` before any set returns the sentinel `""`. -/
theorem C7_witness :
    sessionGet (sessionSet (freshSession 0) "userId" (Json.str "42") 0).1 "userId" =
      JsPropValue.json (Json.str "42")
    ∧ sessionGet (freshSession 0) "userId" = JsPropValue.json (Json.str "") :=
  ⟨(C7_set_get_ordinary_keys (freshSession 0) "userId" (Json.str "42") 0 (by decide)).1,
   (C7_set_get_ordinary_keys (freshSession 0) "userId" (Json.str "42") 0 (by decide)).2
     rfl (by decide)⟩

/-- C8: whenever a save runs while the current token is the empty string,
no upsert query is issued to storage. -/
theorem C8_empty_token_no_upsert (s : SessionState) (nowMs : Nat) (h : s.token = "") :
    (saveSession s nowMs).2 = none := by
  simp [saveSession, h]

/-- C8 witness: a freshly constructed engine (token `""`) saving at time 0
issues no query. -/
theorem C8_witness : (saveSession (freshSession 0) 0).2 = none :=
  C8_empty_token_no_upsert (freshSession 0) 0 rfl

/-- C9: `clearSession` twice in a row leaves `values` equal to the empty
mapping after each call and issues two upserts under the unchanged token
whose serialized data payload is the serialized empty mapping both times. -/
theorem C9_clearSession_idempotent
    (s : SessionState) (n1 n2 : Nat) (h : s.token ≠ "") :
    (clearSession s n1).1.values = []
    ∧ (clearSession (clearSession s n1).1 n2).1.values = []
    ∧ (clearSession s n1).2 =
        some { sessionId := s.token, expires := generateExpires s.expiration n1,
               data := jsonStringify (Json.obj []) }
    ∧ (clearSession (clearSession s n1).1 n2).2 =
        some { sessionId := s.token, expires := generateExpires s.expiration n2,
               data := jsonStringify (Json.obj []) } := by
  have h1 : (clearSession s n1).1 = { s with values := [] } := by
    rw [clearSession, saveSession_fst]
  refine ⟨?_, ?_, ?_, ?_⟩
  · rw [h1]
  · rw [h1, clearSession, saveSession_fst]
  · rw [clearSession]
    simp [saveSession, h]
  · rw [h1, clearSession]
    simp [saveSession, h]

/-- C9 witness: two clears on a concrete engine with token `"t"`. -/
theorem C9_witness :
    (clearSession { freshSession 0 with token := "t" } 1000).1.values = []
    ∧ (clearSession (clearSession { freshSession 0 with token := "t" } 1000).1 2000).1.values = []
    ∧ (clearSession { freshSession 0 with token := "t" } 1000).2 =
        some { sessionId := "t", expires := generateExpires defaultExpiration 1000,
               data := jsonStringify (Json.obj []) }
    ∧ (clearSession (clearSession { freshSession 0 with token := "t" } 1000).1 2000).2 =
        some { sessionId := "t", expires := generateExpires defaultExpiration 2000,
               data := jsonStringify (Json.obj []) } :=
  C9_clearSession_idempotent { freshSession 0 with token := "t" } 1000 2000 (by decide)

/-- C10: a successful lookup of a non-empty token T returning zero rows
makes the callback receive the freshly generated token — distinct from T,
given that the 24-byte random uid differs from T — together with the
message "Session Not Found"; the repair save persists the current values
under the new token. -/
theorem C10_not_found_new_token
    (s : SessionState) (t freshTok errInfo : String) (nowMs : Nat)
    (ht : t ≠ "") (hne : freshTok ≠ t) (hf : freshTok ≠ "") :
    loadSession s t (QueryResult.rows []) freshTok errInfo nowMs =
      LoadOutcome.done
        { s with token := freshTok, expires := generateExpires s.expiration nowMs }
        (some { sessionId := freshTok, expires := generateExpires s.expiration nowMs,
                data := jsonStringify (Json.obj s.values) })
        freshTok "Session Not Found"
    ∧ freshTok ≠ t := by
  refine ⟨?_, hne⟩
  rw [loadSession_eq_cb]
  simp only [loadSessionCb]
  simp [saveSession, hf]

/-- C10 witness: `loadSession("nonexistent-token")` with an empty result
set hands the callback the fresh token and "Session Not Found". -/
theorem C10_witness :
    loadSession (freshSession 0) "nonexistent-token" (QueryResult.rows [])
        "wvGFcYDEJZPRGTAMb4rjUfKRQjhGpa4w" "" 0 =
      LoadOutcome.done
        { (freshSession 0) with token := "wvGFcYDEJZPRGTAMb4rjUfKRQjhGpa4w",
                                expires := generateExpires defaultExpiration 0 }
        (some { sessionId := "wvGFcYDEJZPRGTAMb4rjUfKRQjhGpa4w",
                expires := generateExpires defaultExpiration 0,
                data := jsonStringify (Json.obj []) })
        "wvGFcYDEJZPRGTAMb4rjUfKRQjhGpa4w" "Session Not Found"
    ∧ ("wvGFcYDEJZPRGTAMb4rjUfKRQjhGpa4w" : String) ≠ "nonexistent-token" :=
  C10_not_found_new_token (freshSession 0) "nonexistent-token"
    "wvGFcYDEJZPRGTAMb4rjUfKRQjhGpa4w" "" 0 (by decide) (by decide) (by decide)
